import Mathlib

/-!
Shallow embedding of the heart-rate effort/quality scoring engine
(`calculateHeartRateZones`, `getEffortLevel`, `calculateWorkoutQuality`).
Heart rates, zone bounds and durations are modelled with exact integer and
rational arithmetic; `Math.round` is round-half-toward-positive-infinity.
JavaScript truthiness tests on a heart rate (`!data.heartRate`) are modelled
explicitly: both `null` and `0` are falsy.
-/

namespace HeartRate

/-- JS `Math.round` on an exact rational: round half toward positive infinity. -/
def mathRound (q : ℚ) : ℤ := ⌊q + 1/2⌋

/-- Exact-arithmetic model of `Math.round (Math.sqrt v)` for a nonnegative
rational `v`: the nearest integer to the real square root of `v`. -/
def mathRoundSqrt (v : ℚ) : ℤ := ((Nat.sqrt (Int.toNat ⌊4 * v⌋) + 1) / 2 : ℕ)

/-- One heart-rate sample; `none` models a `null` reading. -/
structure HeartRateData where
  heartRate : Option ℤ
  timestamp : ℤ
deriving DecidableEq

structure Band where
  min : ℤ
  max : ℤ
deriving DecidableEq

structure Zones where
  recovery : Band
  fatBurn : Band
  aerobic : Band
  anaerobic : Band
  max : Band
deriving DecidableEq

/-- `calculateHeartRateZones` from the source. -/
def calculateHeartRateZones (maxHeartRate : ℤ) : Zones :=
  { recovery := ⟨0, mathRound ((maxHeartRate : ℚ) * 0.5)⟩
    fatBurn := ⟨mathRound ((maxHeartRate : ℚ) * 0.5), mathRound ((maxHeartRate : ℚ) * 0.6)⟩
    aerobic := ⟨mathRound ((maxHeartRate : ℚ) * 0.6), mathRound ((maxHeartRate : ℚ) * 0.7)⟩
    anaerobic := ⟨mathRound ((maxHeartRate : ℚ) * 0.7), mathRound ((maxHeartRate : ℚ) * 0.85)⟩
    max := ⟨mathRound ((maxHeartRate : ℚ) * 0.85), maxHeartRate⟩ }

structure EffortReading where
  zone : String
  intensity : ℤ
  description : String
deriving DecidableEq

/-- `getEffortLevel` from the source. -/
def getEffortLevel (heartRate maxHeartRate : ℤ) : EffortReading :=
  let zones := calculateHeartRateZones maxHeartRate
  if heartRate ≤ zones.recovery.max then
    ⟨"Recovery", mathRound (((heartRate : ℚ) / (zones.recovery.max : ℚ)) * 20), "Very Light"⟩
  else if heartRate ≤ zones.fatBurn.max then
    ⟨"Fat Burn",
      mathRound (20 + (((heartRate : ℚ) - (zones.fatBurn.min : ℚ)) /
        ((zones.fatBurn.max : ℚ) - (zones.fatBurn.min : ℚ))) * 20), "Light"⟩
  else if heartRate ≤ zones.aerobic.max then
    ⟨"Aerobic",
      mathRound (40 + (((heartRate : ℚ) - (zones.aerobic.min : ℚ)) /
        ((zones.aerobic.max : ℚ) - (zones.aerobic.min : ℚ))) * 20), "Moderate"⟩
  else if heartRate ≤ zones.anaerobic.max then
    ⟨"Anaerobic",
      mathRound (60 + (((heartRate : ℚ) - (zones.anaerobic.min : ℚ)) /
        ((zones.anaerobic.max : ℚ) - (zones.anaerobic.min : ℚ))) * 20), "Hard"⟩
  else
    ⟨"Max",
      mathRound (80 + (((heartRate : ℚ) - (zones.max.min : ℚ)) /
        ((zones.max.max : ℚ) - (zones.max.min : ℚ))) * 20), "Maximum"⟩

inductive WorkoutType
  | Weightlifting | Cardio | HIIT | CrossFit | Running | Cycling | Yoga | Other
deriving DecidableEq

structure WorkoutSpecific where
  hrVariability : Option ℤ
  peakSpikes : Option ℤ
  recoveryEfficiency : Option ℚ
  sustainedAerobic : Option ℤ
  zoneTransitions : Option ℤ
deriving DecidableEq

structure WorkoutQuality where
  averageIntensity : ℤ
  maxIntensity : ℤ
  timeInZones : List (String × ℤ)
  quality : String
  score : ℤ
  workoutSpecific : Option WorkoutSpecific
deriving DecidableEq

/-- The per-sample intensity series entry: `!data.heartRate` (null or `0`)
contributes `0`, otherwise `getEffortLevel(...).intensity`. -/
def intensityOf (maxHeartRate : ℤ) (d : HeartRateData) : ℤ :=
  match d.heartRate with
  | none => 0
  | some h => if h = 0 then 0 else (getEffortLevel h maxHeartRate).intensity

structure ZoneCounts where
  recovery : ℤ
  fatBurn : ℤ
  aerobic : ℤ
  anaerobic : ℤ
  max : ℤ
deriving DecidableEq

def zeroCounts : ZoneCounts := ⟨0, 0, 0, 0, 0⟩

/-- One step of the `timeInZones` counting loop: a falsy heart rate (null or
`0`) is skipped, otherwise the matching bucket is incremented. -/
def zoneBump (zones : Zones) (c : ZoneCounts) (d : HeartRateData) : ZoneCounts :=
  match d.heartRate with
  | none => c
  | some h =>
    if h = 0 then c
    else if h ≤ zones.recovery.max then { c with recovery := c.recovery + 1 }
    else if h ≤ zones.fatBurn.max then { c with fatBurn := c.fatBurn + 1 }
    else if h ≤ zones.aerobic.max then { c with aerobic := c.aerobic + 1 }
    else if h ≤ zones.anaerobic.max then { c with anaerobic := c.anaerobic + 1 }
    else { c with max := c.max + 1 }

def zoneCountsOf (zones : Zones) (l : List HeartRateData) : ZoneCounts :=
  l.foldl (zoneBump zones) zeroCounts

/-- Count-to-percentage conversion used for `timeInZones` and
`sustainedAerobic`: `Math.round(count / total * 100)`. -/
def pct (count total : ℤ) : ℤ := mathRound (((count : ℚ) / (total : ℚ)) * 100)

/-- `validHRs`: the non-null heart-rate values (a `0` reading is kept). -/
def validHRs (l : List HeartRateData) : List ℤ := l.filterMap (·.heartRate)

/-- Arithmetic mean of a list of heart rates. -/
def listMean (v : List ℤ) : ℚ := ((v.sum : ℤ) : ℚ) / (v.length : ℚ)

/-- Population variance of a list of heart rates. -/
def listVariance (v : List ℤ) : ℚ :=
  (v.map (fun h => ((h : ℚ) - listMean v) ^ 2)).sum / (v.length : ℚ)

/-- `hrVariability`: rounded population standard deviation of the valid
heart rates; only produced when there are at least two of them. -/
def hrVariability (l : List HeartRateData) : Option ℤ :=
  if 1 < (validHRs l).length then some (mathRoundSqrt (listVariance (validHRs l)))
  else none

/-- `d.heartRate && d.heartRate > anaerobicThreshold`. -/
def isPeakSpike (threshold : ℤ) (d : HeartRateData) : Bool :=
  match d.heartRate with
  | none => false
  | some h => h ≠ 0 && threshold < h

def peakSpikes (maxHeartRate : ℤ) (l : List HeartRateData) : ℤ :=
  ((l.filter (isPeakSpike (mathRound ((maxHeartRate : ℚ) * 0.85)))).length : ℤ)

/-- One step of the sustained-aerobic scan: state is
(best run so far, current run). -/
def sustainedStep (aMin aMax : ℤ) : ℤ × ℤ → HeartRateData → ℤ × ℤ
  | (maxS, cur), d =>
    match d.heartRate with
    | none => (maxS, 0)
    | some h =>
      if h ≠ 0 ∧ aMin ≤ h ∧ h ≤ aMax then (max maxS (cur + 1), cur + 1)
      else (maxS, 0)

def maxSustainedAerobic (maxHeartRate : ℤ) (l : List HeartRateData) : ℤ :=
  (l.foldl
    (sustainedStep (mathRound ((maxHeartRate : ℚ) * 0.6)) (mathRound ((maxHeartRate : ℚ) * 0.7)))
    (0, 0)).1

/-- The zone label chain used inside the aggregator's loops. -/
def zoneKey (zones : Zones) (h : ℤ) : String :=
  if h ≤ zones.recovery.max then "recovery"
  else if h ≤ zones.fatBurn.max then "fatBurn"
  else if h ≤ zones.aerobic.max then "aerobic"
  else if h ≤ zones.anaerobic.max then "anaerobic"
  else "max"

/-- One step of the zone-transition scan: state is (count, previous zone,
with `""` standing for "no valid sample seen yet"). A falsy heart rate is
skipped without touching the state. -/
def transitionStep (zones : Zones) : ℤ × String → HeartRateData → ℤ × String
  | (cnt, prev), d =>
    match d.heartRate with
    | none => (cnt, prev)
    | some h =>
      if h = 0 then (cnt, prev)
      else
        let cur := zoneKey zones h
        (if prev ≠ "" ∧ prev ≠ cur then cnt + 1 else cnt, cur)

def zoneTransitions (zones : Zones) (l : List HeartRateData) : ℤ :=
  (l.foldl (transitionStep zones) (0, "")).1

/-- `Math.max(...xs)` for the non-empty intensity list. -/
def jsMaxList : List ℤ → ℤ
  | [] => 0
  | h :: t => t.foldl max h

def durationScore (duration : ℚ) : ℚ := min (duration / 3600 * 100) 100

/-- `calculateWorkoutQuality` from the source. -/
def calculateWorkoutQuality (heartRateData : List HeartRateData) (maxHeartRate : ℤ)
    (duration : ℚ) (workoutType : WorkoutType) : WorkoutQuality :=
  if heartRateData.length = 0 then
    ⟨0, 0, [], "Poor", 0, none⟩
  else
    let intensities := heartRateData.map (intensityOf maxHeartRate)
    let averageIntensity : ℚ := ((intensities.sum : ℤ) : ℚ) / (intensities.length : ℚ)
    let maxIntensity : ℤ := jsMaxList intensities
    let zones := calculateHeartRateZones maxHeartRate
    let counts := zoneCountsOf zones heartRateData
    let total : ℤ := (heartRateData.length : ℤ)
    let tz : List (String × ℤ) :=
      [("recovery", pct counts.recovery total), ("fatBurn", pct counts.fatBurn total),
       ("aerobic", pct counts.aerobic total), ("anaerobic", pct counts.anaerobic total),
       ("max", pct counts.max total)]
    let hrVar := hrVariability heartRateData
    let spikes := peakSpikes maxHeartRate heartRateData
    let sustained := pct (maxSustainedAerobic maxHeartRate heartRateData) total
    let transitions := zoneTransitions zones heartRateData
    let timeInHighIntensity : ℤ := pct counts.anaerobic total + pct counts.max total
    let dScore := durationScore duration
    let n : ℚ := (heartRateData.length : ℚ)
    let score : ℤ :=
      match workoutType with
      | .Weightlifting =>
        -- JS `workoutSpecific.hrVariability ? ... : 50`: a variability of 0 is falsy
        let variabilityScore : ℚ :=
          match hrVar with
          | some v => if v = 0 then 50 else min ((v : ℚ) / 30 * 100) 100
          | none => 50
        let spikesScore : ℚ := min ((spikes : ℚ) / (max (n / 10) 1) * 100) 100
        mathRound ((maxIntensity : ℚ) * 0.30 + spikesScore * 0.25 + variabilityScore * 0.25 +
          dScore * 0.10 + averageIntensity * 0.10)
      | .Cardio | .Running | .Cycling =>
        mathRound ((sustained : ℚ) * 0.35 + averageIntensity * 0.30 + dScore * 0.20 +
          ((pct counts.aerobic total : ℤ) : ℚ) * 0.15)
      | .HIIT | .CrossFit =>
        let transitionsScore : ℚ := min ((transitions : ℚ) / (max (n / 5) 1) * 100) 100
        mathRound (((timeInHighIntensity : ℤ) : ℚ) * 0.30 + transitionsScore * 0.25 +
          (maxIntensity : ℚ) * 0.25 + averageIntensity * 0.20)
      | _ =>
        mathRound (averageIntensity * 0.35 + (maxIntensity : ℚ) * 0.30 +
          ((timeInHighIntensity : ℤ) : ℚ) * 0.20 + dScore * 0.15)
    let quality : String :=
      if 80 ≤ score then "Excellent"
      else if 60 ≤ score then "Good"
      else if 40 ≤ score then "Fair"
      else "Poor"
    ⟨mathRound averageIntensity, maxIntensity, tz, quality, score,
      some ⟨hrVar, some spikes, none, some sustained, some transitions⟩⟩

/-- Band index (0 = recovery … 4 = max) of the classifier's
`if`/`else if` chain; proof-side companion of `getEffortLevel`. -/
def bandIdx (maxHeartRate hr : ℤ) : ℕ :=
  if hr ≤ (calculateHeartRateZones maxHeartRate).recovery.max then 0
  else if hr ≤ (calculateHeartRateZones maxHeartRate).fatBurn.max then 1
  else if hr ≤ (calculateHeartRateZones maxHeartRate).aerobic.max then 2
  else if hr ≤ (calculateHeartRateZones maxHeartRate).anaerobic.max then 3
  else 4

/-- Number of adjacent differing pairs in a zone-label sequence. -/
def adjacentDiffs : List String → ℤ
  | [] => 0
  | [_] => 0
  | a :: b :: t => (if b ≠ a then 1 else 0) + adjacentDiffs (b :: t)

/-- The classified zones of the truthy (non-null, nonzero) samples, in order:
exactly the samples the transition scan's previous-zone pointer advances on. -/
def validZoneSeq (zones : Zones) (l : List HeartRateData) : List String :=
  l.filterMap (fun d =>
    match d.heartRate with
    | none => none
    | some h => if h = 0 then none else some (zoneKey zones h))

/-- The classified zones of the NON-NULL samples, in order — the claim-side
notion of "valid" that ignores JS truthiness of a `0` reading. -/
def nonNullZoneSeq (zones : Zones) (l : List HeartRateData) : List String :=
  l.filterMap (fun d => d.heartRate.map (zoneKey zones))

/-- Number of non-null samples of `l` classified into the zone `name`. -/
def zoneKeyCount (zones : Zones) (name : String) (l : List HeartRateData) : ℤ :=
  (((validHRs l).filter (fun h => zoneKey zones h == name)).length : ℤ)

/-- Scenario B: ten samples alternating 60 and 190 bpm. -/
def scenarioB : List HeartRateData :=
  [⟨some 60, 0⟩, ⟨some 190, 1⟩, ⟨some 60, 2⟩, ⟨some 190, 3⟩, ⟨some 60, 4⟩,
   ⟨some 190, 5⟩, ⟨some 60, 6⟩, ⟨some 190, 7⟩, ⟨some 60, 8⟩, ⟨some 190, 9⟩]

/-- Scenario C: one null reading among nine valid 150-bpm readings. -/
def scenarioC : List HeartRateData :=
  [⟨some 150, 0⟩, ⟨some 150, 1⟩, ⟨some 150, 2⟩, ⟨some 150, 3⟩, ⟨none, 4⟩,
   ⟨some 150, 5⟩, ⟨some 150, 6⟩, ⟨some 150, 7⟩, ⟨some 150, 8⟩, ⟨some 150, 9⟩]

inductive EngineResult where
  | ok : WorkoutQuality → EngineResult
  | error : String → EngineResult
deriving DecidableEq

/-- Modelled from the spec: the source `calculateWorkoutQuality` has no
argument guard; the spec mandates that a faithful reimplementation reject a
non-positive `maxHeartRate` or a negative `durationSeconds` with an explicit
`InvalidArgument` failure. This wrapper adds exactly that guard around the
source computation. -/
def calculateWorkoutQualityChecked (heartRateData : List HeartRateData) (maxHeartRate : ℤ)
    (duration : ℚ) (workoutType : WorkoutType) : EngineResult :=
  if maxHeartRate ≤ 0 ∨ duration < 0 then .error "InvalidArgument"
  else .ok (calculateWorkoutQuality heartRateData maxHeartRate duration workoutType)

/-! ## Evaluation lemmas for the concrete scenarios -/

lemma zones200 :
    calculateHeartRateZones 200 = ⟨⟨0, 100⟩, ⟨100, 120⟩, ⟨120, 140⟩, ⟨140, 170⟩, ⟨170, 200⟩⟩ := by
  norm_num [calculateHeartRateZones, mathRound, Zones.mk.injEq, Band.mk.injEq]

lemma effort100 : getEffortLevel 100 200 = ⟨"Recovery", 20, "Very Light"⟩ := by
  norm_num [getEffortLevel, zones200, mathRound, EffortReading.mk.injEq]

lemma effort60 : getEffortLevel 60 200 = ⟨"Recovery", 12, "Very Light"⟩ := by
  norm_num [getEffortLevel, zones200, mathRound, EffortReading.mk.injEq]

lemma effort190 : getEffortLevel 190 200 = ⟨"Max", 93, "Maximum"⟩ := by
  norm_num [getEffortLevel, zones200, mathRound, EffortReading.mk.injEq]

lemma effort150 : getEffortLevel 150 200 = ⟨"Anaerobic", 67, "Hard"⟩ := by
  norm_num [getEffortLevel, zones200, mathRound, EffortReading.mk.injEq]

lemma mathRoundSqrt_zero : mathRoundSqrt 0 = 0 := by
  have h1 : (4 * (0 : ℚ)) = 0 := by norm_num
  rw [mathRoundSqrt, h1]
  have h2 : ⌊(0 : ℚ)⌋ = 0 := by norm_num
  rw [h2]
  rfl

lemma mathRoundSqrt_4225 : mathRoundSqrt 4225 = 65 := by
  have h1 : (4 * (4225 : ℚ)) = 16900 := by norm_num
  rw [mathRoundSqrt, h1]
  have h2 : ⌊(16900 : ℚ)⌋ = 16900 := by norm_num
  rw [h2]
  have h3 : Int.toNat 16900 = 16900 := rfl
  rw [h3]
  have h4 : Nat.sqrt 16900 = 130 := by norm_num
  rw [h4]
  norm_num

lemma intensities_scenA :
    [(⟨some 100, 0⟩ : HeartRateData)].map (intensityOf 200) = [20] := by
  simp [intensityOf, effort100]

lemma counts_scenA :
    zoneCountsOf (calculateHeartRateZones 200) [⟨some 100, 0⟩] = ⟨1, 0, 0, 0, 0⟩ := by
  simp [zoneCountsOf, zoneBump, zones200, zeroCounts]

lemma hrVar_scenA : hrVariability [⟨some 100, 0⟩] = none := by
  simp [hrVariability, validHRs]

lemma spikes_scenA : peakSpikes 200 [⟨some 100, 0⟩] = 0 := by
  norm_num [peakSpikes, isPeakSpike, mathRound]

lemma sus_scenA : maxSustainedAerobic 200 [⟨some 100, 0⟩] = 0 := by
  norm_num [maxSustainedAerobic, sustainedStep, mathRound]

lemma trans_scenA :
    zoneTransitions (calculateHeartRateZones 200) [⟨some 100, 0⟩] = 0 := by
  simp [zoneTransitions, transitionStep, zoneKey, zones200]

/-- Full evaluation of scenario A through the aggregator. -/
lemma scenA_eval :
    calculateWorkoutQuality [⟨some 100, 0⟩] 200 60 .Other =
      ⟨20, 20,
        [("recovery", 100), ("fatBurn", 0), ("aerobic", 0), ("anaerobic", 0), ("max", 0)],
        "Poor", 13, some ⟨none, some 0, none, some 0, some 0⟩⟩ := by
  have hne : ¬ (([⟨some 100, 0⟩] : List HeartRateData).length = 0) := by simp
  unfold calculateWorkoutQuality
  rw [if_neg hne]
  simp only [intensities_scenA, counts_scenA, hrVar_scenA, spikes_scenA, sus_scenA, trans_scenA]
  norm_num [pct, mathRound, jsMaxList, durationScore, min_def, max_def,
    WorkoutQuality.mk.injEq, WorkoutSpecific.mk.injEq]

lemma intensities_scenB :
    scenarioB.map (intensityOf 200) = [12, 93, 12, 93, 12, 93, 12, 93, 12, 93] := by
  simp [scenarioB, intensityOf, effort60, effort190]

lemma counts_scenB : zoneCountsOf (calculateHeartRateZones 200) scenarioB = ⟨5, 0, 0, 0, 5⟩ := by
  simp [zoneCountsOf, scenarioB, zoneBump, zones200, zeroCounts]

lemma validHRs_scenB : validHRs scenarioB = [60, 190, 60, 190, 60, 190, 60, 190, 60, 190] := by
  simp [validHRs, scenarioB]

lemma mean_scenB : listMean [60, 190, 60, 190, 60, 190, 60, 190, 60, 190] = 125 := by
  norm_num [listMean]

lemma var_scenB : listVariance [60, 190, 60, 190, 60, 190, 60, 190, 60, 190] = 4225 := by
  rw [listVariance, mean_scenB]
  norm_num

lemma hrVar_scenB : hrVariability scenarioB = some 65 := by
  rw [hrVariability, validHRs_scenB, if_pos (by norm_num), var_scenB, mathRoundSqrt_4225]

lemma spikes_scenB : peakSpikes 200 scenarioB = 5 := by
  norm_num [peakSpikes, scenarioB, isPeakSpike, mathRound]

lemma sus_scenB : maxSustainedAerobic 200 scenarioB = 0 := by
  norm_num [maxSustainedAerobic, scenarioB, sustainedStep, mathRound]

lemma trans_scenB : zoneTransitions (calculateHeartRateZones 200) scenarioB = 9 := by
  simp [zoneTransitions, scenarioB, transitionStep, zoneKey, zones200]

/-- Full evaluation of scenario B through the aggregator. -/
lemma scenB_eval :
    calculateWorkoutQuality scenarioB 200 600 .HIIT =
      ⟨53, 93,
        [("recovery", 50), ("fatBurn", 0), ("aerobic", 0), ("anaerobic", 0), ("max", 50)],
        "Good", 74, some ⟨some 65, some 5, none, some 0, some 9⟩⟩ := by
  have hne : ¬ (scenarioB.length = 0) := by simp [scenarioB]
  unfold calculateWorkoutQuality
  rw [if_neg hne]
  simp only [intensities_scenB, counts_scenB, hrVar_scenB, spikes_scenB, sus_scenB, trans_scenB]
  norm_num [scenarioB, pct, mathRound, jsMaxList, durationScore, min_def, max_def,
    WorkoutQuality.mk.injEq, WorkoutSpecific.mk.injEq]

lemma intensities_scenC :
    scenarioC.map (intensityOf 200) = [67, 67, 67, 67, 0, 67, 67, 67, 67, 67] := by
  simp [scenarioC, intensityOf, effort150]

lemma counts_scenC : zoneCountsOf (calculateHeartRateZones 200) scenarioC = ⟨0, 0, 0, 9, 0⟩ := by
  simp [zoneCountsOf, scenarioC, zoneBump, zones200, zeroCounts]

lemma validHRs_scenC :
    validHRs scenarioC = [150, 150, 150, 150, 150, 150, 150, 150, 150] := by
  simp [validHRs, scenarioC]

lemma mean_scenC : listMean [150, 150, 150, 150, 150, 150, 150, 150, 150] = 150 := by
  norm_num [listMean]

lemma var_scenC : listVariance [150, 150, 150, 150, 150, 150, 150, 150, 150] = 0 := by
  rw [listVariance, mean_scenC]
  norm_num

lemma hrVar_scenC : hrVariability scenarioC = some 0 := by
  rw [hrVariability, validHRs_scenC, if_pos (by norm_num), var_scenC, mathRoundSqrt_zero]

lemma spikes_scenC : peakSpikes 200 scenarioC = 0 := by
  norm_num [peakSpikes, scenarioC, isPeakSpike, mathRound]

lemma sus_scenC : maxSustainedAerobic 200 scenarioC = 0 := by
  norm_num [maxSustainedAerobic, scenarioC, sustainedStep, mathRound]

lemma trans_scenC : zoneTransitions (calculateHeartRateZones 200) scenarioC = 0 := by
  simp [zoneTransitions, scenarioC, transitionStep, zoneKey, zones200]

/-- Full evaluation of scenario C through the aggregator. -/
lemma scenC_eval :
    calculateWorkoutQuality scenarioC 200 600 .Other =
      ⟨60, 67,
        [("recovery", 0), ("fatBurn", 0), ("aerobic", 0), ("anaerobic", 90), ("max", 0)],
        "Good", 62, some ⟨some 0, some 0, none, some 0, some 0⟩⟩ := by
  have hne : ¬ (scenarioC.length = 0) := by simp [scenarioC]
  unfold calculateWorkoutQuality
  rw [if_neg hne]
  simp only [intensities_scenC, counts_scenC, hrVar_scenC, spikes_scenC, sus_scenC, trans_scenC]
  norm_num [scenarioC, pct, mathRound, jsMaxList, durationScore, min_def, max_def,
    WorkoutQuality.mk.injEq, WorkoutSpecific.mk.injEq]

/-! ## Theorems for the claims -/

/-- Claim C3: on the empty sample sequence the aggregator returns exactly
`{averageIntensity 0, maxIntensity 0, timeInZones {}, quality Poor, score 0}`
with no workoutSpecific block, independent of `M`, `D` and the workout type. -/
theorem c3_empty_input (M : ℤ) (D : ℚ) (T : WorkoutType) :
    calculateWorkoutQuality [] M D T = ⟨0, 0, [], "Poor", 0, none⟩ := rfl

/-- Claim C1 as stated fails on the code: at `M = 200` the single sample
`100` sits on the inclusive upper edge of the recovery band, so it is
classified Recovery (not Fat Burn), `timeInZones.fatBurn` is `0` (not `100`),
and the score is `13` (not `19`; the spec's expansion `0.35·20 = 13` is an
arithmetic slip — it is `7`). -/
theorem c1_counterexample :
    (getEffortLevel 100 200).zone ≠ "Fat Burn" ∧
    ("fatBurn", 100) ∉ (calculateWorkoutQuality [⟨some 100, 0⟩] 200 60 .Other).timeInZones ∧
    (calculateWorkoutQuality [⟨some 100, 0⟩] 200 60 .Other).score ≠ 19 := by
  rw [effort100, scenA_eval]
  refine ⟨by decide, by decide, by decide⟩

/-- Claim C1 (amended): for `M = 200`, the single sample `{100, 0}`, duration
60 and type Other, the sample is classified into the recovery band with
intensity 20, and the result has averageIntensity 20, maxIntensity 20,
timeInZones recovery 100 and every other zone 0, score 13 and quality Poor. -/
theorem c1_scenario_a :
    calculateWorkoutQuality [⟨some 100, 0⟩] 200 60 .Other =
      ⟨20, 20,
        [("recovery", 100), ("fatBurn", 0), ("aerobic", 0), ("anaerobic", 0), ("max", 0)],
        "Poor", 13, some ⟨none, some 0, none, some 0, some 0⟩⟩ ∧
    (getEffortLevel 100 200).zone = "Recovery" ∧ (getEffortLevel 100 200).intensity = 20 :=
  ⟨scenA_eval, by rw [effort100], by rw [effort100]⟩

/-- Claim C4 as stated fails on the code: the alternating 60/190 HIIT
scenario does yield 9 zone transitions, but the score is 74, which is below
the Excellent band (≥ 80). -/
theorem c4_counterexample :
    (calculateWorkoutQuality scenarioB 200 600 .HIIT).workoutSpecific =
      some ⟨some 65, some 5, none, some 0, some 9⟩ ∧
    (calculateWorkoutQuality scenarioB 200 600 .HIIT).score = 74 ∧
    ¬ 80 ≤ (calculateWorkoutQuality scenarioB 200 600 .HIIT).score := by
  rw [scenB_eval]
  refine ⟨rfl, rfl, by decide⟩

/-- Claim C4 (amended): for `M = 200` and ten samples alternating 60 and 190
bpm with type HIIT, the aggregator reports zoneTransitions 9, half the
samples in recovery and half in the max band, score 74 and quality Good. -/
theorem c4_scenario_b :
    calculateWorkoutQuality scenarioB 200 600 .HIIT =
      ⟨53, 93,
        [("recovery", 50), ("fatBurn", 0), ("aerobic", 0), ("anaerobic", 0), ("max", 50)],
        "Good", 74, some ⟨some 65, some 5, none, some 0, some 9⟩⟩ :=
  scenB_eval

/-- Claim C7 as stated fails on the code: intensity is not clamped to 100 —
a heart rate of 300 at `M = 200` produces intensity 167 in the catch-all Max
band. -/
theorem c7_counterexample :
    (getEffortLevel 300 200).intensity = 167 ∧ 100 < (getEffortLevel 300 200).intensity := by
  norm_num [getEffortLevel, zones200, mathRound]

/-- Claim C2 as stated fails on the code at `M = 1`: rounding collapses the
bands, the shared boundary of fatBurn and aerobic is `1`, yet the sample `1`
is classified Recovery by both the classifier and the aggregator chain — not
into fatBurn, the lower of the two zones sharing that boundary. -/
theorem c2_counterexample :
    (calculateHeartRateZones 1).fatBurn.max = (calculateHeartRateZones 1).aerobic.min ∧
    (getEffortLevel (calculateHeartRateZones 1).fatBurn.max 1).zone ≠ "Fat Burn" ∧
    zoneKey (calculateHeartRateZones 1) (calculateHeartRateZones 1).fatBurn.max ≠ "fatBurn" := by
  norm_num [getEffortLevel, calculateHeartRateZones, mathRound, zoneKey]
  exact ⟨by decide, by decide⟩

/-- Claim C8 as stated fails on the code: a sample with heart rate exactly
`0` is non-null but falsy, so the previous-zone pointer does not advance on
it. For `[0, 150]` at `M = 200` the code counts 0 transitions while the
non-null subsequence has zones `[recovery, anaerobic]`, i.e. 1 differing
adjacent pair. -/
theorem c8_counterexample :
    zoneTransitions (calculateHeartRateZones 200) [⟨some 0, 0⟩, ⟨some 150, 1⟩] = 0 ∧
    adjacentDiffs (nonNullZoneSeq (calculateHeartRateZones 200)
      [⟨some 0, 0⟩, ⟨some 150, 1⟩]) = 1 := by
  constructor
  · simp [zoneTransitions, transitionStep, zoneKey, zones200]
  · simp [adjacentDiffs, nonNullZoneSeq, zoneKey, zones200]

/-- Claim C5 as stated fails on the code: a sample with heart rate exactly
`0` is classified into the recovery band by the classifier chain yet
increments no zone bucket (it is falsy, like null), so the recovery
percentage of the singleton list `[0]` is 0 while the claim's formula —
classified count over total — gives 100. -/
theorem c5_counterexample :
    (calculateWorkoutQuality [⟨some 0, 0⟩] 200 60 .Other).timeInZones =
      [("recovery", 0), ("fatBurn", 0), ("aerobic", 0), ("anaerobic", 0), ("max", 0)] ∧
    zoneKey (calculateHeartRateZones 200) 0 = "recovery" ∧
    pct (zoneKeyCount (calculateHeartRateZones 200) "recovery" [⟨some 0, 0⟩]) 1 = 100 := by
  refine ⟨?_, by simp [zoneKey, zones200], ?_⟩
  · have hne : ¬ (([⟨some 0, 0⟩] : List HeartRateData).length = 0) := by simp
    unfold calculateWorkoutQuality
    rw [if_neg hne]
    norm_num [zoneCountsOf, zoneBump, zones200, zeroCounts, pct, mathRound]
  · have h1 : zoneKeyCount (calculateHeartRateZones 200) "recovery" [⟨some 0, 0⟩] = 1 := by
      simp [zoneKeyCount, validHRs, zoneKey, zones200]
    rw [h1]
    norm_num [pct, mathRound]

/-- Claim C9 as stated fails on the code: the source engine never raises any
failure — at `maxHeartRate = 0` and negative duration it still returns a
plain result (here the canonical empty one), while the spec-mandated checked
wrapper rejects the same input with `InvalidArgument`. -/
theorem c9_counterexample :
    calculateWorkoutQuality [] 0 (-5) .Other = ⟨0, 0, [], "Poor", 0, none⟩ ∧
    calculateWorkoutQualityChecked [] 0 (-5) .Other = .error "InvalidArgument" := by
  constructor
  · rfl
  · rw [calculateWorkoutQualityChecked, if_pos]
    left
    norm_num

/-- Claim C9 (amended): the source engine itself never fails; the
spec-mandated checked wrapper fails with `InvalidArgument` exactly when
`maxHeartRate ≤ 0` or `duration < 0`, raises no other kind of failure, and
otherwise returns the source engine's result unchanged. -/
theorem c9_checked_guard (l : List HeartRateData) (M : ℤ) (D : ℚ) (T : WorkoutType) :
    (M ≤ 0 ∨ D < 0 → calculateWorkoutQualityChecked l M D T = .error "InvalidArgument") ∧
    (1 ≤ M → 0 ≤ D → calculateWorkoutQualityChecked l M D T =
      .ok (calculateWorkoutQuality l M D T)) ∧
    (∀ e, calculateWorkoutQualityChecked l M D T = .error e → e = "InvalidArgument") := by
  unfold calculateWorkoutQualityChecked
  refine ⟨fun h => if_pos h, fun h1 h2 => ?_, fun e he => ?_⟩
  · rw [if_neg (by push_neg; exact ⟨by omega, h2⟩)]
  · by_cases h : M ≤ 0 ∨ D < 0
    · rw [if_pos h] at he
      injection he with h'
      exact h'.symm
    · rw [if_neg h] at he
      exact EngineResult.noConfusion he

/-- Witness for C9: the wrapper rejects `M = 0, D = -5` and passes through
the source result at `M = 200, D = 60`. -/
theorem c9_witness :
    calculateWorkoutQualityChecked [] 0 (-5) .Other = .error "InvalidArgument" ∧
    calculateWorkoutQualityChecked [] 200 60 .Other =
      .ok (calculateWorkoutQuality [] 200 60 .Other) :=
  ⟨(c9_checked_guard [] 0 (-5) .Other).1 (Or.inl (by norm_num)),
   (c9_checked_guard [] 200 60 .Other).2.1 (by norm_num) (by norm_num)⟩

/-- Claim C10: a sample with heart rate exactly `0` is treated like a null
reading by the intensity series, the zone-occupancy counting, peakSpikes,
the sustained-aerobic scan and the zone-transition scan (replacing it by a
null sample changes none of them), yet its value `0` is kept in the
valid-sample list that feeds hrVariability. -/
theorem c10_zero_heart_rate (pre post : List HeartRateData) (ts M : ℤ) :
    intensityOf M ⟨some 0, ts⟩ = 0 ∧
    (pre ++ ⟨some 0, ts⟩ :: post).map (intensityOf M) =
      (pre ++ ⟨none, ts⟩ :: post).map (intensityOf M) ∧
    zoneCountsOf (calculateHeartRateZones M) (pre ++ ⟨some 0, ts⟩ :: post) =
      zoneCountsOf (calculateHeartRateZones M) (pre ++ ⟨none, ts⟩ :: post) ∧
    peakSpikes M (pre ++ ⟨some 0, ts⟩ :: post) = peakSpikes M (pre ++ ⟨none, ts⟩ :: post) ∧
    maxSustainedAerobic M (pre ++ ⟨some 0, ts⟩ :: post) =
      maxSustainedAerobic M (pre ++ ⟨none, ts⟩ :: post) ∧
    zoneTransitions (calculateHeartRateZones M) (pre ++ ⟨some 0, ts⟩ :: post) =
      zoneTransitions (calculateHeartRateZones M) (pre ++ ⟨none, ts⟩ :: post) ∧
    validHRs (pre ++ ⟨some 0, ts⟩ :: post) = validHRs pre ++ 0 :: validHRs post := by
  refine ⟨rfl, ?_, ?_, ?_, ?_, ?_, ?_⟩
  · simp [intensityOf]
  · simp [zoneCountsOf, List.foldl_append, zoneBump]
  · simp [peakSpikes, List.filter_append, isPeakSpike]
  · simp [maxSustainedAerobic, List.foldl_append, sustainedStep]
  · simp [zoneTransitions, List.foldl_append, transitionStep]
  · simp [validHRs, List.filterMap_append]

lemma zoneKey_ne_empty (zones : Zones) (h : ℤ) : zoneKey zones h ≠ "" := by
  unfold zoneKey
  split_ifs <;> simp

/-- The transition fold, started after a valid sample whose zone is `z`,
counts the adjacent differing pairs of `z` followed by the remaining valid
zone sequence. -/
lemma transitions_go (zones : Zones) (l : List HeartRateData) :
    ∀ (cnt : ℤ) (z : String), z ≠ "" →
      (l.foldl (transitionStep zones) (cnt, z)).1 =
        cnt + adjacentDiffs (z :: validZoneSeq zones l) := by
  induction l with
  | nil => intro cnt z _; simp [validZoneSeq, adjacentDiffs]
  | cons d t ih =>
    intro cnt z hz
    match hd : d.heartRate with
    | none =>
      have hstep : transitionStep zones (cnt, z) d = (cnt, z) := by
        simp [transitionStep, hd]
      rw [List.foldl_cons, hstep, ih cnt z hz]
      simp [validZoneSeq, hd]
    | some h =>
      by_cases h0 : h = 0
      · have hstep : transitionStep zones (cnt, z) d = (cnt, z) := by
          simp [transitionStep, hd, h0]
        rw [List.foldl_cons, hstep, ih cnt z hz]
        simp [validZoneSeq, hd, h0]
      · have hstep : transitionStep zones (cnt, z) d =
            ((if z ≠ "" ∧ z ≠ zoneKey zones h then cnt + 1 else cnt), zoneKey zones h) := by
          simp [transitionStep, hd, h0]
        have hseq : validZoneSeq zones (d :: t) = zoneKey zones h :: validZoneSeq zones t := by
          simp [validZoneSeq, hd, h0]
        rw [List.foldl_cons, hstep, ih _ _ (zoneKey_ne_empty zones h), hseq]
        rw [show adjacentDiffs (z :: zoneKey zones h :: validZoneSeq zones t) =
            (if zoneKey zones h ≠ z then 1 else 0) +
              adjacentDiffs (zoneKey zones h :: validZoneSeq zones t) from rfl]
        by_cases hzw : z = zoneKey zones h
        · simp [hzw]
        · rw [if_pos ⟨hz, hzw⟩, if_pos (Ne.symm hzw)]
          ring

/-- `zoneTransitions` counts the adjacent differing pairs of the zone
sequence of the truthy (non-null, nonzero) samples. -/
lemma transitions_spec (zones : Zones) (l : List HeartRateData) :
    zoneTransitions zones l = adjacentDiffs (validZoneSeq zones l) := by
  unfold zoneTransitions
  induction l with
  | nil => simp [validZoneSeq, adjacentDiffs]
  | cons d t ih =>
    match hd : d.heartRate with
    | none =>
      have hstep : transitionStep zones (0, "") d = (0, "") := by
        simp [transitionStep, hd]
      rw [List.foldl_cons, hstep, ih]
      simp [validZoneSeq, hd]
    | some h =>
      by_cases h0 : h = 0
      · have hstep : transitionStep zones (0, "") d = (0, "") := by
          simp [transitionStep, hd, h0]
        rw [List.foldl_cons, hstep, ih]
        simp [validZoneSeq, hd, h0]
      · have hstep : transitionStep zones (0, "") d = (0, zoneKey zones h) := by
          simp [transitionStep, hd, h0]
        have hseq : validZoneSeq zones (d :: t) = zoneKey zones h :: validZoneSeq zones t := by
          simp [validZoneSeq, hd, h0]
        rw [List.foldl_cons, hstep, hseq,
          transitions_go zones t 0 (zoneKey zones h) (zoneKey_ne_empty zones h), zero_add]

/-- Claim C8 (amended): zoneTransitions equals the number of adjacent
differing pairs in the zone sequence of the truthy samples — the non-null
samples whose heart rate is also nonzero (a `0` reading is skipped exactly
like a null one); and this is the quantity the aggregator reports for every
non-empty input. -/
theorem c8_transitions (l : List HeartRateData) (M : ℤ) (d : HeartRateData)
    (t : List HeartRateData) (D : ℚ) (T : WorkoutType) :
    zoneTransitions (calculateHeartRateZones M) l =
      adjacentDiffs (validZoneSeq (calculateHeartRateZones M) l) ∧
    (calculateWorkoutQuality (d :: t) M D T).workoutSpecific.map
        WorkoutSpecific.zoneTransitions =
      some (some (adjacentDiffs (validZoneSeq (calculateHeartRateZones M) (d :: t)))) := by
  constructor
  · exact transitions_spec _ l
  · have hne : ¬ ((d :: t).length = 0) := by simp
    unfold calculateWorkoutQuality
    rw [if_neg hne]
    simp only [transitions_spec]
    rfl

/-! ## Rounding and zone-bound lemmas -/

lemma mathRound_intCast (n : ℤ) : mathRound (n : ℚ) = n := by
  unfold mathRound
  rw [add_comm, Int.floor_add_int]
  norm_num

lemma mathRound_mono {a b : ℚ} (h : a ≤ b) : mathRound a ≤ mathRound b :=
  Int.floor_mono (by linarith)

lemma mathRound_le_of_le {q : ℚ} {n : ℤ} (h : q ≤ (n : ℚ)) : mathRound q ≤ n := by
  have hm := mathRound_mono h
  rwa [mathRound_intCast] at hm

lemma le_mathRound_of_le {n : ℤ} {q : ℚ} (h : (n : ℚ) ≤ q) : n ≤ mathRound q := by
  have hm := mathRound_mono h
  rwa [mathRound_intCast] at hm

lemma recovery_max_pos (M : ℤ) (hM : 1 ≤ M) : 1 ≤ (calculateHeartRateZones M).recovery.max := by
  show 1 ≤ mathRound ((M : ℚ) * 0.5)
  have h1 : mathRound ((1 : ℚ) * 0.5) = 1 := by unfold mathRound; norm_num
  rw [← h1]
  apply mathRound_mono
  have hm : (1 : ℚ) ≤ (M : ℚ) := by exact_mod_cast hM
  linarith

lemma recovery_le_fatBurn (M : ℤ) (hM : 0 ≤ M) :
    (calculateHeartRateZones M).recovery.max ≤ (calculateHeartRateZones M).fatBurn.max := by
  show mathRound ((M : ℚ) * 0.5) ≤ mathRound ((M : ℚ) * 0.6)
  apply mathRound_mono
  have hm : (0 : ℚ) ≤ (M : ℚ) := by exact_mod_cast hM
  linarith

lemma fatBurn_le_aerobic (M : ℤ) (hM : 0 ≤ M) :
    (calculateHeartRateZones M).fatBurn.max ≤ (calculateHeartRateZones M).aerobic.max := by
  show mathRound ((M : ℚ) * 0.6) ≤ mathRound ((M : ℚ) * 0.7)
  apply mathRound_mono
  have hm : (0 : ℚ) ≤ (M : ℚ) := by exact_mod_cast hM
  linarith

lemma aerobic_le_anaerobic (M : ℤ) (hM : 0 ≤ M) :
    (calculateHeartRateZones M).aerobic.max ≤ (calculateHeartRateZones M).anaerobic.max := by
  show mathRound ((M : ℚ) * 0.7) ≤ mathRound ((M : ℚ) * 0.85)
  apply mathRound_mono
  have hm : (0 : ℚ) ≤ (M : ℚ) := by exact_mod_cast hM
  linarith

lemma anaerobic_le_top (M : ℤ) (hM : 0 ≤ M) :
    (calculateHeartRateZones M).anaerobic.max ≤ M := by
  show mathRound ((M : ℚ) * 0.85) ≤ M
  unfold mathRound
  rw [← Int.lt_add_one_iff, Int.floor_lt]
  have hm : (0 : ℚ) ≤ (M : ℚ) := by exact_mod_cast hM
  push_cast
  linarith

/-! ## Zone-occupancy counting (claim C5) -/

lemma zoneBump_fields (zones : Zones) (c : ZoneCounts) (d : HeartRateData) (h : ℤ)
    (hd : d.heartRate = some h) (h0 : ¬ h = 0) :
    zoneBump zones c d =
      ⟨c.recovery + (if zoneKey zones h = "recovery" then 1 else 0),
       c.fatBurn + (if zoneKey zones h = "fatBurn" then 1 else 0),
       c.aerobic + (if zoneKey zones h = "aerobic" then 1 else 0),
       c.anaerobic + (if zoneKey zones h = "anaerobic" then 1 else 0),
       c.max + (if zoneKey zones h = "max" then 1 else 0)⟩ := by
  simp only [zoneBump, zoneKey, hd]
  rw [if_neg h0]
  split_ifs <;> simp_all

lemma zoneKeyCount_cons_some (zones : Zones) (name : String) (d : HeartRateData) (h : ℤ)
    (hd : d.heartRate = some h) (t : List HeartRateData) :
    zoneKeyCount zones name (d :: t) =
      (if zoneKey zones h = name then 1 else 0) + zoneKeyCount zones name t := by
  by_cases hk : zoneKey zones h = name
  · simp [zoneKeyCount, validHRs, hd, hk, List.filter_cons]
    ring
  · simp [zoneKeyCount, validHRs, hd, hk, List.filter_cons]

lemma zoneKeyCount_cons_none (zones : Zones) (name : String) (d : HeartRateData)
    (hd : d.heartRate = none) (t : List HeartRateData) :
    zoneKeyCount zones name (d :: t) = zoneKeyCount zones name t := by
  simp [zoneKeyCount, validHRs, hd]

lemma zoneCounts_fold (zones : Zones) :
    ∀ (l : List HeartRateData) (c : ZoneCounts), (∀ d ∈ l, d.heartRate ≠ some 0) →
      l.foldl (zoneBump zones) c =
        ⟨c.recovery + zoneKeyCount zones "recovery" l,
         c.fatBurn + zoneKeyCount zones "fatBurn" l,
         c.aerobic + zoneKeyCount zones "aerobic" l,
         c.anaerobic + zoneKeyCount zones "anaerobic" l,
         c.max + zoneKeyCount zones "max" l⟩ := by
  intro l
  induction l with
  | nil => intro c _; simp [zoneKeyCount, validHRs]
  | cons d t ih =>
    intro c hnz
    have hnz_t : ∀ x ∈ t, x.heartRate ≠ some 0 := fun x hx => hnz x (List.mem_cons_of_mem _ hx)
    match hd : d.heartRate with
    | none =>
      have hstep : zoneBump zones c d = c := by simp [zoneBump, hd]
      rw [List.foldl_cons, hstep, ih c hnz_t]
      simp only [zoneKeyCount_cons_none zones _ d hd t]
    | some h =>
      have h0 : ¬ h = 0 := by
        intro hh
        exact hnz d (List.mem_cons_self d t) (by rw [hd, hh])
      rw [List.foldl_cons, zoneBump_fields zones c d h hd h0, ih _ hnz_t]
      simp only [zoneKeyCount_cons_some zones _ d h hd t, ZoneCounts.mk.injEq]
      refine ⟨by ring, by ring, by ring, by ring, by ring⟩

/-- Claim C5 (amended): for every non-empty sample list whose non-null heart
rates are all nonzero, each zone percentage reported in timeInZones is the
count of non-null samples classified into that zone divided by the total
sample count (nulls included), rounded to nearest; and in scenario C (one
null among nine 150-bpm readings at M = 200) no zone reaches 100, the
percentages sum to 90 ≠ 100, and hrVariability is 0, computed from the nine
valid readings. -/
theorem c5_zone_percentages (l : List HeartRateData) (M : ℤ) (D : ℚ) (T : WorkoutType)
    (hne : l ≠ []) (hnz : ∀ d ∈ l, d.heartRate ≠ some 0) :
    (calculateWorkoutQuality l M D T).timeInZones =
      [("recovery", pct (zoneKeyCount (calculateHeartRateZones M) "recovery" l) (l.length : ℤ)),
       ("fatBurn", pct (zoneKeyCount (calculateHeartRateZones M) "fatBurn" l) (l.length : ℤ)),
       ("aerobic", pct (zoneKeyCount (calculateHeartRateZones M) "aerobic" l) (l.length : ℤ)),
       ("anaerobic", pct (zoneKeyCount (calculateHeartRateZones M) "anaerobic" l) (l.length : ℤ)),
       ("max", pct (zoneKeyCount (calculateHeartRateZones M) "max" l) (l.length : ℤ))] ∧
    (∀ p ∈ (calculateWorkoutQuality scenarioC 200 600 .Other).timeInZones, p.2 < 100) ∧
    ((calculateWorkoutQuality scenarioC 200 600 .Other).timeInZones.map Prod.snd).sum ≠ 100 ∧
    (calculateWorkoutQuality scenarioC 200 600 .Other).workoutSpecific =
      some ⟨some 0, some 0, none, some 0, some 0⟩ := by
  refine ⟨?_, ?_, ?_, ?_⟩
  · have hlen : ¬ (l.length = 0) := by simpa [List.length_eq_zero] using hne
    unfold calculateWorkoutQuality
    rw [if_neg hlen]
    simp only [zoneCountsOf]
    rw [zoneCounts_fold (calculateHeartRateZones M) l zeroCounts hnz]
    simp [zeroCounts]
  · rw [scenC_eval]
    decide
  · rw [scenC_eval]
    decide
  · rw [scenC_eval]

/-- Witness for C5 at scenario C. -/
theorem c5_witness :
    (calculateWorkoutQuality scenarioC 200 600 .Other).timeInZones =
      [("recovery",
        pct (zoneKeyCount (calculateHeartRateZones 200) "recovery" scenarioC)
          (scenarioC.length : ℤ)),
       ("fatBurn",
        pct (zoneKeyCount (calculateHeartRateZones 200) "fatBurn" scenarioC)
          (scenarioC.length : ℤ)),
       ("aerobic",
        pct (zoneKeyCount (calculateHeartRateZones 200) "aerobic" scenarioC)
          (scenarioC.length : ℤ)),
       ("anaerobic",
        pct (zoneKeyCount (calculateHeartRateZones 200) "anaerobic" scenarioC)
          (scenarioC.length : ℤ)),
       ("max",
        pct (zoneKeyCount (calculateHeartRateZones 200) "max" scenarioC)
          (scenarioC.length : ℤ))] :=
  (c5_zone_percentages scenarioC 200 600 .Other (by decide) (by decide)).1

/-! ## Boundary classification (claim C2) -/

/-- Claim C2 (amended): at the shared boundary of two adjacent zones, both
the classifier and the aggregator's bucket counting never choose the upper
of the two zones; they choose exactly the lower zone whenever that lower
zone is non-degenerate (its minimum is strictly below the boundary). -/
theorem c2_boundary_classification (M : ℤ) (hM : 1 ≤ M) (c : ZoneCounts) (ts : ℤ) :
    ((getEffortLevel (calculateHeartRateZones M).recovery.max M).zone = "Recovery" ∧
      zoneBump (calculateHeartRateZones M) c ⟨some (calculateHeartRateZones M).recovery.max, ts⟩ =
        { c with recovery := c.recovery + 1 }) ∧
    ((getEffortLevel (calculateHeartRateZones M).fatBurn.max M).zone ∈
        (["Recovery", "Fat Burn"] : List String) ∧
      (zoneBump (calculateHeartRateZones M) c
        ⟨some (calculateHeartRateZones M).fatBurn.max, ts⟩).aerobic = c.aerobic ∧
      ((calculateHeartRateZones M).fatBurn.min < (calculateHeartRateZones M).fatBurn.max →
        (getEffortLevel (calculateHeartRateZones M).fatBurn.max M).zone = "Fat Burn" ∧
        zoneBump (calculateHeartRateZones M) c
            ⟨some (calculateHeartRateZones M).fatBurn.max, ts⟩ =
          { c with fatBurn := c.fatBurn + 1 })) ∧
    ((getEffortLevel (calculateHeartRateZones M).aerobic.max M).zone ∈
        (["Recovery", "Fat Burn", "Aerobic"] : List String) ∧
      (zoneBump (calculateHeartRateZones M) c
        ⟨some (calculateHeartRateZones M).aerobic.max, ts⟩).anaerobic = c.anaerobic ∧
      ((calculateHeartRateZones M).aerobic.min < (calculateHeartRateZones M).aerobic.max →
        (getEffortLevel (calculateHeartRateZones M).aerobic.max M).zone = "Aerobic" ∧
        zoneBump (calculateHeartRateZones M) c
            ⟨some (calculateHeartRateZones M).aerobic.max, ts⟩ =
          { c with aerobic := c.aerobic + 1 })) ∧
    ((getEffortLevel (calculateHeartRateZones M).anaerobic.max M).zone ∈
        (["Recovery", "Fat Burn", "Aerobic", "Anaerobic"] : List String) ∧
      (zoneBump (calculateHeartRateZones M) c
        ⟨some (calculateHeartRateZones M).anaerobic.max, ts⟩).max = c.max ∧
      ((calculateHeartRateZones M).anaerobic.min < (calculateHeartRateZones M).anaerobic.max →
        (getEffortLevel (calculateHeartRateZones M).anaerobic.max M).zone = "Anaerobic" ∧
        zoneBump (calculateHeartRateZones M) c
            ⟨some (calculateHeartRateZones M).anaerobic.max, ts⟩ =
          { c with anaerobic := c.anaerobic + 1 })) := by
  have h0 := recovery_max_pos M hM
  have hm0 : (0 : ℤ) ≤ M := by omega
  have h12 := recovery_le_fatBurn M hm0
  have h23 := fatBurn_le_aerobic M hm0
  have h34 := aerobic_le_anaerobic M hm0
  have e1 : (calculateHeartRateZones M).fatBurn.min = (calculateHeartRateZones M).recovery.max :=
    rfl
  have e2 : (calculateHeartRateZones M).aerobic.min = (calculateHeartRateZones M).fatBurn.max :=
    rfl
  have e3 :
      (calculateHeartRateZones M).anaerobic.min = (calculateHeartRateZones M).aerobic.max := rfl
  refine ⟨⟨?_, ?_⟩, ⟨?_, ?_, fun hlt => ⟨?_, ?_⟩⟩, ⟨?_, ?_, fun hlt => ⟨?_, ?_⟩⟩,
    ⟨?_, ?_, fun hlt => ⟨?_, ?_⟩⟩⟩
  · simp [getEffortLevel]
  · simp [zoneBump, show ¬ (calculateHeartRateZones M).recovery.max = 0 by omega]
  · by_cases hb : (calculateHeartRateZones M).fatBurn.max ≤ (calculateHeartRateZones M).recovery.max
    · simp [getEffortLevel, hb]
    · simp [getEffortLevel, hb]
  · by_cases hb : (calculateHeartRateZones M).fatBurn.max ≤ (calculateHeartRateZones M).recovery.max
    · simp [zoneBump, hb, show ¬ (calculateHeartRateZones M).fatBurn.max = 0 by omega]
    · simp [zoneBump, hb, show ¬ (calculateHeartRateZones M).fatBurn.max = 0 by omega]
  · have hb : ¬ (calculateHeartRateZones M).fatBurn.max ≤ (calculateHeartRateZones M).recovery.max := by
      omega
    simp [getEffortLevel, hb]
  · have hb : ¬ (calculateHeartRateZones M).fatBurn.max ≤ (calculateHeartRateZones M).recovery.max := by
      omega
    simp [zoneBump, hb, show ¬ (calculateHeartRateZones M).fatBurn.max = 0 by omega]
  · by_cases hb1 : (calculateHeartRateZones M).aerobic.max ≤ (calculateHeartRateZones M).recovery.max
    · simp [getEffortLevel, hb1]
    · by_cases hb2 :
        (calculateHeartRateZones M).aerobic.max ≤ (calculateHeartRateZones M).fatBurn.max
      · simp [getEffortLevel, hb1, hb2]
      · simp [getEffortLevel, hb1, hb2]
  · by_cases hb1 : (calculateHeartRateZones M).aerobic.max ≤ (calculateHeartRateZones M).recovery.max
    · simp [zoneBump, hb1, show ¬ (calculateHeartRateZones M).aerobic.max = 0 by omega]
    · by_cases hb2 :
        (calculateHeartRateZones M).aerobic.max ≤ (calculateHeartRateZones M).fatBurn.max
      · simp [zoneBump, hb1, hb2, show ¬ (calculateHeartRateZones M).aerobic.max = 0 by omega]
      · simp [zoneBump, hb1, hb2, show ¬ (calculateHeartRateZones M).aerobic.max = 0 by omega]
  · have hb1 : ¬ (calculateHeartRateZones M).aerobic.max ≤ (calculateHeartRateZones M).recovery.max := by
      omega
    have hb2 : ¬ (calculateHeartRateZones M).aerobic.max ≤ (calculateHeartRateZones M).fatBurn.max := by
      omega
    simp [getEffortLevel, hb1, hb2]
  · have hb1 : ¬ (calculateHeartRateZones M).aerobic.max ≤ (calculateHeartRateZones M).recovery.max := by
      omega
    have hb2 : ¬ (calculateHeartRateZones M).aerobic.max ≤ (calculateHeartRateZones M).fatBurn.max := by
      omega
    simp [zoneBump, hb1, hb2, show ¬ (calculateHeartRateZones M).aerobic.max = 0 by omega]
  · by_cases hb1 :
      (calculateHeartRateZones M).anaerobic.max ≤ (calculateHeartRateZones M).recovery.max
    · simp [getEffortLevel, hb1]
    · by_cases hb2 :
        (calculateHeartRateZones M).anaerobic.max ≤ (calculateHeartRateZones M).fatBurn.max
      · simp [getEffortLevel, hb1, hb2]
      · by_cases hb3 :
          (calculateHeartRateZones M).anaerobic.max ≤ (calculateHeartRateZones M).aerobic.max
        · simp [getEffortLevel, hb1, hb2, hb3]
        · simp [getEffortLevel, hb1, hb2, hb3]
  · by_cases hb1 :
      (calculateHeartRateZones M).anaerobic.max ≤ (calculateHeartRateZones M).recovery.max
    · simp [zoneBump, hb1, show ¬ (calculateHeartRateZones M).anaerobic.max = 0 by omega]
    · by_cases hb2 :
        (calculateHeartRateZones M).anaerobic.max ≤ (calculateHeartRateZones M).fatBurn.max
      · simp [zoneBump, hb1, hb2, show ¬ (calculateHeartRateZones M).anaerobic.max = 0 by omega]
      · by_cases hb3 :
          (calculateHeartRateZones M).anaerobic.max ≤ (calculateHeartRateZones M).aerobic.max
        · simp [zoneBump, hb1, hb2, hb3,
            show ¬ (calculateHeartRateZones M).anaerobic.max = 0 by omega]
        · simp [zoneBump, hb1, hb2, hb3,
            show ¬ (calculateHeartRateZones M).anaerobic.max = 0 by omega]
  · have hb1 :
        ¬ (calculateHeartRateZones M).anaerobic.max ≤ (calculateHeartRateZones M).recovery.max := by
      omega
    have hb2 :
        ¬ (calculateHeartRateZones M).anaerobic.max ≤ (calculateHeartRateZones M).fatBurn.max := by
      omega
    have hb3 :
        ¬ (calculateHeartRateZones M).anaerobic.max ≤ (calculateHeartRateZones M).aerobic.max := by
      omega
    simp [getEffortLevel, hb1, hb2, hb3]
  · have hb1 :
        ¬ (calculateHeartRateZones M).anaerobic.max ≤ (calculateHeartRateZones M).recovery.max := by
      omega
    have hb2 :
        ¬ (calculateHeartRateZones M).anaerobic.max ≤ (calculateHeartRateZones M).fatBurn.max := by
      omega
    have hb3 :
        ¬ (calculateHeartRateZones M).anaerobic.max ≤ (calculateHeartRateZones M).aerobic.max := by
      omega
    simp [zoneBump, hb1, hb2, hb3, show ¬ (calculateHeartRateZones M).anaerobic.max = 0 by omega]

/-- Witness for C2 at `M = 200`: the fatBurn/aerobic boundary 120 is
classified Fat Burn and bumps the fatBurn bucket. -/
theorem c2_boundary_witness :
    (getEffortLevel (calculateHeartRateZones 200).fatBurn.max 200).zone = "Fat Burn" ∧
    zoneBump (calculateHeartRateZones 200) zeroCounts
        ⟨some (calculateHeartRateZones 200).fatBurn.max, 0⟩ =
      { zeroCounts with fatBurn := zeroCounts.fatBurn + 1 } :=
  (c2_boundary_classification 200 (by norm_num) zeroCounts 0).2.1.2.2 (by simp [zones200])

/-! ## Intensity range and monotonicity (claims C6 and C7) -/

lemma seg_bounds (cz : ℤ) (c : ℚ) (hc : (cz : ℚ) = c) (lo hi x : ℤ)
    (hlo : lo ≤ x) (hhi : x ≤ hi) (hd : lo < hi) :
    cz ≤ mathRound (c + (((x : ℚ) - (lo : ℚ)) / ((hi : ℚ) - (lo : ℚ))) * 20) ∧
    mathRound (c + (((x : ℚ) - (lo : ℚ)) / ((hi : ℚ) - (lo : ℚ))) * 20) ≤ cz + 20 := by
  have hd' : (0 : ℚ) < (hi : ℚ) - (lo : ℚ) := by
    rw [sub_pos]
    exact_mod_cast hd
  have ht0 : 0 ≤ ((x : ℚ) - (lo : ℚ)) / ((hi : ℚ) - (lo : ℚ)) :=
    div_nonneg (by rw [sub_nonneg]; exact_mod_cast hlo) hd'.le
  have ht1 : ((x : ℚ) - (lo : ℚ)) / ((hi : ℚ) - (lo : ℚ)) ≤ 1 := by
    rw [div_le_one hd']
    have hx : (x : ℚ) ≤ (hi : ℚ) := by exact_mod_cast hhi
    linarith
  constructor
  · apply le_mathRound_of_le
    rw [hc]
    linarith
  · apply mathRound_le_of_le
    push_cast
    rw [hc]
    linarith

lemma seg_bounds0 (d x : ℤ) (h0 : 0 ≤ x) (hx : x ≤ d) (hd : 0 < d) :
    0 ≤ mathRound (((x : ℚ) / (d : ℚ)) * 20) ∧ mathRound (((x : ℚ) / (d : ℚ)) * 20) ≤ 20 := by
  have hd' : (0 : ℚ) < (d : ℚ) := by exact_mod_cast hd
  have ht0 : 0 ≤ (x : ℚ) / (d : ℚ) := div_nonneg (by exact_mod_cast h0) hd'.le
  have ht1 : (x : ℚ) / (d : ℚ) ≤ 1 := by
    rw [div_le_one hd']
    exact_mod_cast hx
  constructor
  · apply le_mathRound_of_le
    push_cast
    linarith
  · apply mathRound_le_of_le
    push_cast
    linarith

lemma seg_mono (c : ℚ) (lo hi a b : ℤ) (hab : a ≤ b) (hd : lo < hi) :
    mathRound (c + (((a : ℚ) - (lo : ℚ)) / ((hi : ℚ) - (lo : ℚ))) * 20) ≤
      mathRound (c + (((b : ℚ) - (lo : ℚ)) / ((hi : ℚ) - (lo : ℚ))) * 20) := by
  apply mathRound_mono
  have hd' : (0 : ℚ) < (hi : ℚ) - (lo : ℚ) := by
    rw [sub_pos]
    exact_mod_cast hd
  have h1 : ((a : ℚ) - (lo : ℚ)) / ((hi : ℚ) - (lo : ℚ)) ≤
      ((b : ℚ) - (lo : ℚ)) / ((hi : ℚ) - (lo : ℚ)) := by
    gcongr
  linarith

lemma seg_mono0 (d a b : ℤ) (hab : a ≤ b) (hd : 0 < d) :
    mathRound (((a : ℚ) / (d : ℚ)) * 20) ≤ mathRound (((b : ℚ) / (d : ℚ)) * 20) := by
  apply mathRound_mono
  have hd' : (0 : ℚ) < (d : ℚ) := by exact_mod_cast hd
  have h1 : (a : ℚ) / (d : ℚ) ≤ (b : ℚ) / (d : ℚ) := by
    gcongr
  linarith

lemma bandIdx_mono (M a b : ℤ) (h : a ≤ b) : bandIdx M a ≤ bandIdx M b := by
  unfold bandIdx
  split_ifs <;> omega

lemma bandIdx_lt (M a : ℤ) : bandIdx M a < 5 := by
  unfold bandIdx
  split_ifs <;> omega

/-- In the matched band, the intensity lies between the band's base value
and the base value plus 20. -/
lemma intensity_bounds (M x : ℤ) (hM : 1 ≤ M) (h0 : 0 ≤ x) (h1 : x ≤ M) :
    20 * (bandIdx M x : ℤ) ≤ (getEffortLevel x M).intensity ∧
    (getEffortLevel x M).intensity ≤ 20 * (bandIdx M x : ℤ) + 20 := by
  have hrm := recovery_max_pos M hM
  have hm0 : (0 : ℤ) ≤ M := by omega
  have h12 := recovery_le_fatBurn M hm0
  have h23 := fatBurn_le_aerobic M hm0
  have h34 := aerobic_le_anaerobic M hm0
  have h4M := anaerobic_le_top M hm0
  have e1 : (calculateHeartRateZones M).fatBurn.min = (calculateHeartRateZones M).recovery.max :=
    rfl
  have e2 : (calculateHeartRateZones M).aerobic.min = (calculateHeartRateZones M).fatBurn.max :=
    rfl
  have e3 :
      (calculateHeartRateZones M).anaerobic.min = (calculateHeartRateZones M).aerobic.max := rfl
  have e4 : (calculateHeartRateZones M).max.min = (calculateHeartRateZones M).anaerobic.max := rfl
  have e5 : (calculateHeartRateZones M).max.max = M := rfl
  simp only [getEffortLevel, bandIdx]
  split_ifs with hA hB hC hD
  · have hb := seg_bounds0 ((calculateHeartRateZones M).recovery.max) x h0 hA (by omega)
    exact ⟨by simpa using hb.1, by simpa using hb.2⟩
  · have hb := seg_bounds 20 20 (by norm_num) ((calculateHeartRateZones M).fatBurn.min)
      ((calculateHeartRateZones M).fatBurn.max) x (by omega) hB (by omega)
    exact ⟨by simpa using hb.1, by simpa using hb.2⟩
  · have hb := seg_bounds 40 40 (by norm_num) ((calculateHeartRateZones M).aerobic.min)
      ((calculateHeartRateZones M).aerobic.max) x (by omega) hC (by omega)
    exact ⟨by simpa using hb.1, by simpa using hb.2⟩
  · have hb := seg_bounds 60 60 (by norm_num) ((calculateHeartRateZones M).anaerobic.min)
      ((calculateHeartRateZones M).anaerobic.max) x (by omega) hD (by omega)
    exact ⟨by simpa using hb.1, by simpa using hb.2⟩
  · have hb := seg_bounds 80 80 (by norm_num) ((calculateHeartRateZones M).max.min)
      ((calculateHeartRateZones M).max.max) x (by omega) (by omega) (by omega)
    exact ⟨by simpa using hb.1, by simpa using hb.2⟩

lemma intensity_mono_same (M a b : ℤ) (hM : 1 ≤ M) (h0 : 0 ≤ a) (hab : a ≤ b) (hbM : b ≤ M)
    (heq : bandIdx M a = bandIdx M b) :
    (getEffortLevel a M).intensity ≤ (getEffortLevel b M).intensity := by
  have hrm := recovery_max_pos M hM
  have hm0 : (0 : ℤ) ≤ M := by omega
  have h12 := recovery_le_fatBurn M hm0
  have h23 := fatBurn_le_aerobic M hm0
  have h34 := aerobic_le_anaerobic M hm0
  have h4M := anaerobic_le_top M hm0
  have e1 : (calculateHeartRateZones M).fatBurn.min = (calculateHeartRateZones M).recovery.max :=
    rfl
  have e2 : (calculateHeartRateZones M).aerobic.min = (calculateHeartRateZones M).fatBurn.max :=
    rfl
  have e3 :
      (calculateHeartRateZones M).anaerobic.min = (calculateHeartRateZones M).aerobic.max := rfl
  have e4 : (calculateHeartRateZones M).max.min = (calculateHeartRateZones M).anaerobic.max := rfl
  have e5 : (calculateHeartRateZones M).max.max = M := rfl
  unfold bandIdx at heq
  simp only [getEffortLevel]
  split_ifs at heq ⊢ <;>
    first
      | omega
      | exact seg_mono0 _ _ _ hab (by omega)
      | exact seg_mono _ _ _ _ _ hab (by omega)

lemma intensity_mono (M a b : ℤ) (hM : 1 ≤ M) (h0 : 0 ≤ a) (hab : a ≤ b) (hbM : b ≤ M) :
    (getEffortLevel a M).intensity ≤ (getEffortLevel b M).intensity := by
  rcases eq_or_lt_of_le (bandIdx_mono M a b hab) with heq | hlt
  · exact intensity_mono_same M a b hM h0 hab hbM heq
  · have hA := (intensity_bounds M a hM h0 (le_trans hab hbM)).2
    have hB := (intensity_bounds M b hM (le_trans h0 hab) hbM).1
    have hstep : (bandIdx M a : ℤ) + 1 ≤ (bandIdx M b : ℤ) := by exact_mod_cast hlt
    linarith

/-- Claim C6: for positive integer `M` and heart rates within `[0, M]`, the
classifier's intensity lies in `[0, 100]` and is monotonically non-decreasing
in the heart rate. -/
theorem c6_intensity_monotone (M hr hr' : ℤ) (hM : 1 ≤ M) (h0 : 0 ≤ hr) (h1 : hr ≤ hr')
    (h2 : hr' ≤ M) :
    0 ≤ (getEffortLevel hr M).intensity ∧ (getEffortLevel hr M).intensity ≤ 100 ∧
    (getEffortLevel hr M).intensity ≤ (getEffortLevel hr' M).intensity := by
  have hb := intensity_bounds M hr hM h0 (le_trans h1 h2)
  have h5 := bandIdx_lt M hr
  have h5' : (bandIdx M hr : ℤ) ≤ 4 := by omega
  have hnn : (0 : ℤ) ≤ 20 * (bandIdx M hr : ℤ) := by positivity
  exact ⟨by linarith [hb.1], by linarith [hb.2], intensity_mono M hr hr' hM h0 h1 h2⟩

/-- Witness for C6 at `M = 200`, heart rates 100 and 150. -/
theorem c6_witness :
    0 ≤ (getEffortLevel 100 200).intensity ∧ (getEffortLevel 100 200).intensity ≤ 100 ∧
    (getEffortLevel 100 200).intensity ≤ (getEffortLevel 150 200).intensity :=
  c6_intensity_monotone 200 100 150 (by norm_num) (by norm_num) (by norm_num) (by norm_num)

/-- Claim C7 (amended): the classifier's intensity lies within `0..100` for
every heart rate between `0` and `maxHeartRate`; above `maxHeartRate` the
catch-all Max band extrapolates past 100 (see the counterexample). -/
theorem c7_intensity_range (M hr : ℤ) (hM : 1 ≤ M) (h0 : 0 ≤ hr) (h1 : hr ≤ M) :
    0 ≤ (getEffortLevel hr M).intensity ∧ (getEffortLevel hr M).intensity ≤ 100 := by
  have hb := intensity_bounds M hr hM h0 h1
  have h5 := bandIdx_lt M hr
  have h5' : (bandIdx M hr : ℤ) ≤ 4 := by omega
  have hnn : (0 : ℤ) ≤ 20 * (bandIdx M hr : ℤ) := by positivity
  exact ⟨by linarith [hb.1], by linarith [hb.2]⟩

/-- Witness for C7 at `M = 200`, heart rate 170. -/
theorem c7_witness :
    0 ≤ (getEffortLevel 170 200).intensity ∧ (getEffortLevel 170 200).intensity ≤ 100 :=
  c7_intensity_range 200 170 (by norm_num) (by norm_num) (by norm_num)

end HeartRate
